import Mathlib

/-!
Shallow embedding of `src/app.js` (live-captions page): the session state,
the speech-recognition event handlers (`onstart`, `onend`, `onerror`,
`onresult`), the control functions (`startCaptions`, `stopCaptions`), the
visibility-change and language-change listeners, and the transcript
download handler.  Handlers are pure functions from state to state plus the
engine commands they issue and the retry timers they arm.
-/

/-- One element of the `transcripts` array: `{ text, lang, time }`. -/
structure Transcript where
  text : String
  lang : String
  time : String
deriving DecidableEq

/-- The page's mutable state: the module-level flags and DOM text contents
that the handlers in `app.js` read and write.  `engineGeneration` counts
how many times a `new Recognition()` instance has been constructed; the
script constructs one at load time and no handler ever constructs
another. -/
structure AppState where
  listening : Bool
  autoRestart : Bool
  hasMediaStream : Bool
  status : String
  errorMsg : String
  interimLine : String
  finalLine : String
  transcripts : List Transcript
  lang : String
  engineGeneration : Nat
  startDisabled : Bool
  stopDisabled : Bool
  downloadDisabled : Bool
deriving DecidableEq

/-- A command issued to the recognition engine (`recognition.start()` or
`recognition.stop()`, both wrapped in try/catch in the source). -/
inductive EngineCmd where
  | start
  | stop
deriving DecidableEq

/-- Result of running one handler: the new state, the engine commands it
issued synchronously, and the delays (ms) of the `setTimeout` retry timers
it armed. -/
structure HandlerOut where
  state : AppState
  cmds : List EngineCmd
  timers : List Nat
deriving DecidableEq

/-- `recognition.onstart`: sets the status line. -/
def onstart (s : AppState) : AppState :=
  { s with status := "Listening…" }

/-- `recognition.onend`: updates the status and, when `listening` and the
auto-restart checkbox is checked, immediately calls `recognition.start()`
(no delay, no timer). -/
def onend (s : AppState) : HandlerOut :=
  let s1 := { s with status := if s.listening then "Restarting…" else "Stopped" }
  if s.listening && s.autoRestart then
    ⟨s1, [EngineCmd.start], []⟩
  else
    ⟨s1, [], []⟩

/-- `recognition.onerror`: records the error text; when listening with
auto-restart enabled and the error code is one of
`network`, `no-speech`, `audio-capture`, arms a 500 ms `setTimeout` whose
callback is `retryTimerFire`.  No other error code arms anything. -/
def onerror (s : AppState) (kind : String) : HandlerOut :=
  let s1 := { s with errorMsg := "Error: " ++ kind }
  if s.listening && s.autoRestart &&
      ["network", "no-speech", "audio-capture"].contains kind then
    ⟨s1, [], [500]⟩
  else
    ⟨s1, [], []⟩

/-- The body of the `setTimeout` callback armed by `onerror`:
`try { recognition.start(); } catch (_) {}` — it issues a start command
unconditionally, without re-reading `listening`. -/
def retryTimerFire (s : AppState) : HandlerOut :=
  ⟨s, [EngineCmd.start], []⟩

/-- One entry of a speech-recognition result event (the code reads
`r[0].transcript` and `r.isFinal`). -/
structure SpeechResult where
  transcript : String
  isFinal : Bool
deriving DecidableEq

/-- A result event: `event.resultIndex` and `event.results`. -/
structure SpeechEvent where
  resultIndex : Nat
  results : List SpeechResult
deriving DecidableEq

/-- JavaScript `String.prototype.trim` as used by `onresult`: strips
leading and trailing whitespace. -/
def jsTrim (s : String) : String :=
  ⟨((s.data.dropWhile Char.isWhitespace).reverse.dropWhile Char.isWhitespace).reverse⟩

/-- One iteration of the loop in `onresult`: trim the transcript; a final
entry is appended to `latestFinal` with a space separator when
`latestFinal` is non-empty, a non-final entry is appended to `interim`
followed by a space. -/
def resultStep (acc : String × String) (r : SpeechResult) : String × String :=
  let txt := jsTrim r.transcript
  if r.isFinal then
    (acc.1 ++ (if acc.1 ≠ "" then " " else "") ++ txt, acc.2)
  else
    (acc.1, acc.2 ++ txt ++ " ")

/-- The loop of `onresult` over `results[resultIndex ..]`, producing
`(latestFinal, interim)`. -/
def processResults (rs : List SpeechResult) : String × String :=
  rs.foldl resultStep ("", "")

/-- `recognition.onresult`: computes `(latestFinal, interim)` from the
entries at `resultIndex` onward, displays `interim.trim()`, and when
`latestFinal` is non-empty sets the final line, pushes one transcript
object `{ text, lang, time }`, and clears the interim display. -/
def onresult (s : AppState) (e : SpeechEvent) (now : String) : AppState :=
  let r := processResults (e.results.drop e.resultIndex)
  let s1 := { s with interimLine := jsTrim r.2 }
  if r.1 ≠ "" then
    { s1 with
      finalLine := r.1
      transcripts := s1.transcripts ++ [⟨r.1, s1.lang, now⟩]
      interimLine := "" }
  else
    s1

/-- The success path of `startCaptions()`: clears messages, acquires the
media stream, sets `listening = true`, toggles the buttons, and calls
`recognition.start()`. -/
def startCaptionsGranted (s : AppState) : HandlerOut :=
  let s1 := { s with
    errorMsg := ""
    finalLine := ""
    interimLine := ""
    hasMediaStream := true
    listening := true
    startDisabled := true
    stopDisabled := false
    downloadDisabled := false
    status := "Listening…" }
  ⟨s1, [EngineCmd.start], []⟩

/-- The permission-denied path of `startCaptions()`: clears the display
lines, reports the microphone error, returns without touching
`listening`. -/
def startCaptionsDenied (s : AppState) : AppState :=
  { s with
    errorMsg := "Microphone permission denied or unavailable."
    finalLine := ""
    interimLine := ""
    status := "Idle" }

/-- `stopCaptions()`: sets `listening = false`, calls `recognition.stop()`,
releases the media stream if present, toggles the buttons, and sets the
status to Stopped.  It never arms a timer. -/
def stopCaptions (s : AppState) : HandlerOut :=
  let s1 := { s with listening := false }
  let s2 := if s1.hasMediaStream then { s1 with hasMediaStream := false } else s1
  ⟨{ s2 with startDisabled := false, stopDisabled := true, status := "Stopped" },
    [EngineCmd.stop], []⟩

/-- The `visibilitychange` listener: when the document becomes hidden while
listening it calls `recognition.stop()`; in every other case (including
the document becoming visible again) it does nothing. -/
def visibilityChange (s : AppState) (hidden : Bool) : HandlerOut :=
  if hidden && s.listening then
    ⟨s, [EngineCmd.stop], []⟩
  else
    ⟨s, [], []⟩

/-- The language-select `change` listener: updates `recognition.lang` and,
when listening, calls `recognition.stop()` so the natural-end handler
restarts under the new language. -/
def langChange (s : AppState) (code : String) : HandlerOut :=
  let s1 := { s with lang := code }
  if s.listening then
    ⟨s1, [EngineCmd.stop], []⟩
  else
    ⟨s1, [], []⟩

/-- One line of the exported transcript. -/
def formatLine (t : Transcript) : String :=
  "[" ++ t.lang ++ "] " ++ t.time ++ " — " ++ t.text

/-- `Array.prototype.join` with separator a newline, as used by the
download handler. -/
def joinLines : List String → String
  | [] => ""
  | [a] => a
  | a :: b :: rest => a ++ "\n" ++ joinLines (b :: rest)

/-- The `contents` string built by the download handler:
`transcripts.map(t => ...).join(newline)`. -/
def downloadContents (ts : List Transcript) : String :=
  joinLines (ts.map formatLine)

/-- The `downloadBtn` click handler: returns immediately when the
transcript list is empty, otherwise produces the export text (the DOM
blob/anchor plumbing is the external effect of the `some` result). -/
def downloadClick (s : AppState) : AppState × Option String :=
  if s.transcripts.length = 0 then
    (s, none)
  else
    (s, some (downloadContents s.transcripts))

/-- A state in the middle of a healthy listening session with auto-restart
enabled. -/
def listeningState : AppState :=
  { listening := true
    autoRestart := true
    hasMediaStream := true
    status := "Listening…"
    errorMsg := ""
    interimLine := ""
    finalLine := ""
    transcripts := []
    lang := "en-US"
    engineGeneration := 0
    startDisabled := true
    stopDisabled := false
    downloadDisabled := false }

/-- A state after `stopCaptions()` has run. -/
def stoppedState : AppState :=
  (stopCaptions listeningState).state

/-- A result event carrying one finalized entry. -/
def demoFinalEvent : SpeechEvent :=
  ⟨0, [⟨"hello world", true⟩]⟩

/-- Claim C1, counterexample: an error event of kind `not-allowed` while
listening with auto-restart enabled leaves `listening` true, and the
subsequent engine-end event immediately issues a start command — the
session is not stopped permanently as the claim states. -/
theorem C1_counterexample :
    (onerror listeningState "not-allowed").state.listening = true ∧
    (onend (onerror listeningState "not-allowed").state).cmds = [EngineCmd.start] := by
  constructor <;> rfl

/-- Claim C1 (amended): on a permission-class error (`not-allowed` or
`permission-denied`) the error handler arms no retry timer and issues no
command, but it leaves `listening` unchanged; in particular, while
listening with auto-restart enabled, the engine-end event that follows
restarts the engine immediately. -/
theorem C1_amended (s : AppState) (kind : String)
    (h : kind = "not-allowed" ∨ kind = "permission-denied") :
    (onerror s kind).timers = [] ∧
    (onerror s kind).cmds = [] ∧
    (onerror s kind).state.listening = s.listening ∧
    (s.listening = true → s.autoRestart = true →
      (onend (onerror s kind).state).cmds = [EngineCmd.start]) := by
  rcases h with h | h <;> subst h <;>
    refine ⟨?_, ?_, ?_, ?_⟩ <;>
    simp [onerror, onend] <;>
    intro h1 h2 <;> simp [h1, h2]

/-- Witness for C1_amended at the concrete listening state. -/
theorem C1_amended_witness :
    (onerror listeningState "not-allowed").timers = [] ∧
    (onend (onerror listeningState "not-allowed").state).cmds = [EngineCmd.start] :=
  ⟨(C1_amended listeningState "not-allowed" (Or.inl rfl)).1,
   (C1_amended listeningState "not-allowed" (Or.inl rfl)).2.2.2 rfl rfl⟩

/-- Claim C2, counterexample: `onerror "network"` while listening arms a
500 ms retry timer; `stopCaptions` then sets `listening` to false; yet
when the timer fires its callback still issues a start command — a
delayed restart scheduled before stop() does start the engine after
stop(), because the callback never re-checks `listening`. -/
theorem C2_counterexample :
    (onerror listeningState "network").timers = [500] ∧
    (stopCaptions (onerror listeningState "network").state).state.listening = false ∧
    (retryTimerFire (stopCaptions (onerror listeningState "network").state).state).cmds =
      [EngineCmd.start] := by
  refine ⟨?_, ?_, ?_⟩ <;> rfl

/-- Claim C2 (amended): when `listening` is false the end handler issues
no restart and the error handler arms no timer; but the delayed retry
callback armed earlier by the error handler does not re-check `listening`
at fire time, so it issues a start command even in a stopped state. -/
theorem C2_amended (s : AppState) (kind : String) (h : s.listening = false) :
    (onend s).cmds = [] ∧
    (onend s).timers = [] ∧
    (onerror s kind).timers = [] ∧
    (retryTimerFire s).cmds = [EngineCmd.start] := by
  refine ⟨?_, ?_, ?_, ?_⟩ <;> simp [onend, onerror, retryTimerFire, h]

/-- Witness for C2_amended at the concrete stopped state. -/
theorem C2_amended_witness :
    (onend stoppedState).cmds = [] ∧
    (retryTimerFire stoppedState).cmds = [EngineCmd.start] :=
  ⟨(C2_amended stoppedState "network" rfl).1,
   (C2_amended stoppedState "network" rfl).2.2.2⟩

/-- Claim C3: a natural end event while listening with auto-restart
enabled calls `recognition.start()` immediately and arms no timer — there
is no failure counter and no `min(baseEndDelay * (consecutiveFailures+1),
endDelayCap)` backoff in the code. -/
theorem C3_end_restarts_immediately :
    (onend listeningState).cmds = [EngineCmd.start] ∧
    (onend listeningState).timers = [] := by
  constructor <;> rfl

/-- Claim C4: while listening with auto-restart enabled, the errors
`aborted`, `service-not-allowed` and unclassified codes arm no retry timer
and issue no command (they are silently dropped), while a handled error
such as `network` arms a fixed 500 ms timer rather than the claimed
`min(baseErrorDelay * (consecutiveFailures+1), errorDelayCap)` delay. -/
theorem C4_aborted_not_retried :
    (onerror listeningState "aborted").timers = [] ∧
    (onerror listeningState "aborted").cmds = [] ∧
    (onerror listeningState "service-not-allowed").timers = [] ∧
    (onerror listeningState "service-not-allowed").cmds = [] ∧
    (onerror listeningState "some-unknown-error").timers = [] ∧
    (onerror listeningState "network").timers = [500] := by
  refine ⟨?_, ?_, ?_, ?_, ?_, ?_⟩ <;> rfl

/-- Claim C5: no handler in the code ever recreates the recognition
instance — `engineGeneration` is preserved by every handler, so recreation
happens on no error path, and there is no activity-timeout or
periodic-refresh code path at all. -/
theorem C5_no_recreation (s : AppState) (kind code now : String)
    (e : SpeechEvent) (hidden : Bool) :
    (onend s).state.engineGeneration = s.engineGeneration ∧
    (onerror s kind).state.engineGeneration = s.engineGeneration ∧
    (onresult s e now).engineGeneration = s.engineGeneration ∧
    (retryTimerFire s).state.engineGeneration = s.engineGeneration ∧
    (stopCaptions s).state.engineGeneration = s.engineGeneration ∧
    (startCaptionsGranted s).state.engineGeneration = s.engineGeneration ∧
    (startCaptionsDenied s).engineGeneration = s.engineGeneration ∧
    (visibilityChange s hidden).state.engineGeneration = s.engineGeneration ∧
    (langChange s code).state.engineGeneration = s.engineGeneration ∧
    (onstart s).engineGeneration = s.engineGeneration := by
  refine ⟨?_, ?_, ?_, ?_, ?_, ?_, ?_, ?_, ?_, ?_⟩ <;>
    simp [onend, onerror, onresult, retryTimerFire, stopCaptions,
      startCaptionsGranted, startCaptionsDenied, visibilityChange,
      langChange, onstart] <;>
    split <;> rfl

/-- Claim C6: the `visibilitychange` listener does nothing at all when the
document becomes visible again — no command, no timer, no state change —
so there is no delayed resume on visibility restore; on hide while
listening it issues a stop without clearing `listening`. -/
theorem C6_no_resume_on_restore (s : AppState) :
    visibilityChange s false = ⟨s, [], []⟩ ∧
    (s.listening = true → visibilityChange s true = ⟨s, [EngineCmd.stop], []⟩) := by
  constructor
  · rfl
  · intro h
    simp [visibilityChange, h]

/-- Witness for C6_no_resume_on_restore at the concrete listening state. -/
theorem C6_no_resume_on_restore_witness :
    visibilityChange listeningState false = ⟨listeningState, [], []⟩ ∧
    visibilityChange listeningState true = ⟨listeningState, [EngineCmd.stop], []⟩ :=
  ⟨(C6_no_resume_on_restore listeningState).1,
   (C6_no_resume_on_restore listeningState).2 rfl⟩

/-- Claim C7: `onresult` partitions the entries from `resultIndex` onward
by finality; when no final text is produced the transcript list is
unchanged and the interim display shows the (trimmed) interim string; when
the final string is non-empty exactly one transcript entry with that text
is appended, the interim display is cleared in the same event, and the
appended entry's text is non-empty. -/
theorem C7_onresult (s : AppState) (e : SpeechEvent) (now : String) :
    ((processResults (e.results.drop e.resultIndex)).1 = "" →
      (onresult s e now).transcripts = s.transcripts ∧
      (onresult s e now).interimLine =
        jsTrim (processResults (e.results.drop e.resultIndex)).2) ∧
    ((processResults (e.results.drop e.resultIndex)).1 ≠ "" →
      (onresult s e now).transcripts =
        s.transcripts ++
          [⟨(processResults (e.results.drop e.resultIndex)).1, s.lang, now⟩] ∧
      (onresult s e now).interimLine = "" ∧
      ∀ t ∈ (onresult s e now).transcripts.drop s.transcripts.length,
        t.text ≠ "") := by
  constructor
  · intro h
    simp [onresult, h]
  · intro h
    refine ⟨?_, ?_, ?_⟩ <;> simp [onresult, h, List.drop_left]

/-- Witness for C7_onresult at a concrete event with one final entry. -/
theorem C7_onresult_witness :
    (onresult listeningState demoFinalEvent "2025-11-13T10:30:45.123Z").transcripts =
      listeningState.transcripts ++
        [⟨(processResults (demoFinalEvent.results.drop demoFinalEvent.resultIndex)).1,
          listeningState.lang, "2025-11-13T10:30:45.123Z"⟩] ∧
    (onresult listeningState demoFinalEvent "2025-11-13T10:30:45.123Z").interimLine = "" := by
  have h := (C7_onresult listeningState demoFinalEvent "2025-11-13T10:30:45.123Z").2 (by decide)
  exact ⟨h.1, h.2.1⟩

theorem joinLines_concat (xs : List String) (x : String) :
    joinLines (xs ++ [x]) = (if xs = [] then "" else joinLines xs ++ "\n") ++ x := by
  induction xs with
  | nil => simp [joinLines]
  | cons a as ih =>
    cases as with
    | nil => simp [joinLines]
    | cons b bs =>
      have h1 : joinLines ((a :: b :: bs) ++ [x]) =
          a ++ "\n" ++ joinLines ((b :: bs) ++ [x]) := rfl
      have h2 : joinLines (a :: b :: bs) = a ++ "\n" ++ joinLines (b :: bs) := rfl
      rw [h1, ih, h2, if_neg (List.cons_ne_nil b bs),
        if_neg (List.cons_ne_nil a (b :: bs))]
      simp [String.append_assoc]

/-- Claim C8: the export is empty for an empty transcript list, and
appending one transcript entry appends exactly one line of the form
`[<language>] <timestamp> — <text>` at the end, separated from the
previous lines by a newline — one line per entry, in capture order. -/
theorem C8_export_format (ts : List Transcript) (t : Transcript) :
    downloadContents [] = "" ∧
    downloadContents (ts ++ [t]) =
      (if ts = [] then "" else downloadContents ts ++ "\n") ++
        ("[" ++ t.lang ++ "] " ++ t.time ++ " — " ++ t.text) ∧
    (ts.map formatLine).length = ts.length := by
  refine ⟨rfl, ?_, by simp⟩
  cases ts with
  | nil => rfl
  | cons a as =>
    rw [if_neg (List.cons_ne_nil a as)]
    have h1 : downloadContents ((a :: as) ++ [t]) =
        joinLines (((a :: as).map formatLine) ++ [formatLine t]) := by
      simp [downloadContents]
    rw [h1, joinLines_concat,
      if_neg (by simp : ¬((a :: as).map formatLine = []))]
    rfl

/-- Claim C9: `stopCaptions` is idempotent — running it on an
already-stopped state changes nothing — and it never arms a timer. -/
theorem C9_stop_idempotent (s : AppState) :
    (stopCaptions (stopCaptions s).state).state = (stopCaptions s).state ∧
    (stopCaptions s).timers = [] := by
  constructor
  · cases h : s.hasMediaStream <;> simp [stopCaptions, h]
  · rfl

/-- Claim C10: clicking download with an empty transcript list is a
complete no-op — the state is unchanged and no export text is produced. -/
theorem C10_empty_download (s : AppState) (h : s.transcripts = []) :
    downloadClick s = (s, none) := by
  simp [downloadClick, h]

/-- Witness for C10_empty_download at the concrete listening state, whose
transcript list is empty. -/
theorem C10_empty_download_witness :
    downloadClick listeningState = (listeningState, none) :=
  C10_empty_download listeningState rfl
